import Mathlib

/-!
# FAST: SliceRenderer and the streaming example of `main`

A shallow embedding of `source/Visualization/SliceRenderer/SliceRenderer.cpp`
and of the streaming loop of `main.cpp`.

* The renderer object is a record of its member variables; every member
  function is a function on that record.
* OpenGL / OpenCL calls are recorded, in program order, as a list of `Event`s.
* A C++ `throw` is an `Outcome.threw` that carries the message together with
  the object state and the events issued up to the point of the throw.
* `unsigned int` is a `Nat` below `2^32`, `int` an `Int` in `[-2^31, 2^31)`;
  the conversions between the two are the explicit wrapping functions
  `toUnsigned` and `toInt`.
* `float` values (`mWindow`, `mLevel`, `mScale`) are carried as rationals: the
  code only compares them with `-1` and passes them on.
-/

namespace fast

/-! ## Machine integers -/

/-- Number of values of a 32 bit `unsigned int`. -/
def UINT_SIZE : Nat := 4294967296

/-- Smallest value above every 32 bit `int`. -/
def INT_SIZE : Nat := 2147483648

/-- Conversion of an integer value to `unsigned int` (reduction modulo `2^32`). -/
def toUnsigned (x : Int) : Nat := (x % (UINT_SIZE : Int)).toNat

/-- Conversion of an integer value to `int` (two's complement wrap). -/
def toInt (x : Int) : Int :=
  if x % (UINT_SIZE : Int) < (INT_SIZE : Int) then x % (UINT_SIZE : Int)
  else x % (UINT_SIZE : Int) - (UINT_SIZE : Int)

/-- The value is representable as an `int`. -/
def isInt (x : Int) : Prop := -(INT_SIZE : Int) ≤ x ∧ x < (INT_SIZE : Int)

/-- The value is representable as an `unsigned int`. -/
def isUInt (n : Nat) : Prop := n < UINT_SIZE

instance (x : Int) : Decidable (isInt x) := by unfold isInt; infer_instance

instance (n : Nat) : Decidable (isUInt n) := by unfold isUInt; infer_instance

/-! ## Data model -/

/-- The three axis-aligned slice planes (`PlaneType`). -/
inductive PlaneType where
  | PLANE_X
  | PLANE_Y
  | PLANE_Z
  deriving DecidableEq, Repr

/-- Modelled from the spec: the `DataType` enumeration (DataTypes.hpp is not
among the sources). The renderer names `TYPE_FLOAT`, `TYPE_INT8` and
`TYPE_INT16`; `otherType` stands for every further member, told apart by its
code. -/
inductive DataType where
  | TYPE_FLOAT
  | TYPE_INT8
  | TYPE_INT16
  | otherType (code : Nat)
  deriving DecidableEq, Repr

/-- Modelled from the spec: what the renderer reads of an `Image` (Image.hpp is
not among the sources): `getDimensions`, `getWidth`, `getHeight`, `getDepth`
and `getDataType`. -/
structure Image where
  dimensions : Nat
  width : Nat
  height : Nat
  depth : Nat
  dataType : DataType
  deriving DecidableEq, Repr

/-- The three extents of the image are `unsigned int` values. -/
def Image.inRange (img : Image) : Prop :=
  isUInt img.width ∧ isUInt img.height ∧ isUInt img.depth

instance (img : Image) : Decidable img.inRange := by unfold Image.inRange; infer_instance

/-- Modelled from the spec: an `ImageData` object is either a static image or a
dynamic image (DynamicImage.hpp is not among the sources); a dynamic image is
represented by the frames it has still to deliver. -/
inductive ImageData where
  | staticImage (img : Image)
  | dynamicImage (frames : List Image)
  deriving DecidableEq, Repr

/-- Result of `isDynamicData`. -/
def ImageData.isDynamicData : ImageData → Bool
  | .staticImage _ => false
  | .dynamicImage _ => true

/-- Modelled from the spec: `DynamicImage::getNextFrame` (section 4.2): returns
the frame under the cursor and advances the cursor; `none` when the stream has
no further frame (`StreamExhausted`). -/
def getNextFrame : List Image → Option (Image × List Image)
  | [] => none
  | frame :: rest => some (frame, rest)

/-- Modelled from the spec: the two functions of HelperFunctions.hpp used by the
renderer, which are not among the sources; they are a parameter of `execute`. -/
structure HelperFunctions where
  getDefaultIntensityWindow : DataType → ℚ
  getDefaultIntensityLevel : DataType → ℚ

/-- An OpenCL kernel object: the build options of the program it was created
from (`none` for a kernel that was never created) and its six arguments. -/
structure Kernel where
  program : Option String
  arg0 : Option Image
  arg1 : Option Nat
  arg2 : Option Nat
  arg3 : Option ℚ
  arg4 : Option ℚ
  arg5 : Option Nat
  deriving DecidableEq

/-- The calls the renderer makes to OpenGL, to OpenCL and to the device. The
coordinates of `glVertex3f` and `glColor3f` are the integer values the code
passes, before their conversion to `float`. The sizes of `glTexImage2D` are
`GLsizei` values, that is `int`. -/
inductive Event where
  | getOpenCLImageAccess3D (input : Image)
  | glEnable
  | glDeleteTextures (texture : Nat)
  | glGenTextures (texture : Nat)
  | glBindTexture (texture : Nat)
  | glTexParameteri (pname : String) (param : String)
  | glTexImage2D (width : Int) (height : Int)
  | glFinish
  | createImageGL (texture : Nat)
  | enqueueAcquireGLObjects (texture : Nat)
  | createProgramFromSource (file : String) (buildOptions : String)
  | enqueueNDRangeKernel (kernel : Kernel) (width : Nat) (height : Nat)
  | enqueueReleaseGLObjects (texture : Nat)
  | finish
  | glColor3f (r : Int) (g : Int) (b : Int)
  | glBegin
  | glTexCoord2i (s : Int) (t : Int)
  | glVertex3f (x : Int) (y : Int) (z : Int)
  | glEnd
  deriving DecidableEq

/-- The member variables of a `SliceRenderer`. `mInput = none` is the invalid
(null) pointer. `mParent` is the parent link written by `setParent`; the
frames a dynamic input has left are tracked through `mInput`. The device
handle `mDevice` is fixed at construction and not represented. -/
structure SliceRenderer where
  mInput : Option ImageData
  mParent : Option ImageData
  mIsModified : Bool
  mImageGL : Option Nat
  mTexture : Nat
  mTextureIsCreated : Bool
  mKernel : Kernel
  mTypeCLCodeCompiledFor : DataType
  mSlicePlane : PlaneType
  mSliceNr : Int
  mScale : ℚ
  mWindow : ℚ
  mLevel : ℚ
  mWidth : Nat
  mHeight : Nat
  deriving DecidableEq

/-- How a call of a member function ends: it returns, or it throws an
`Exception` with a message. Both carry the object state and the events issued
up to that point. -/
inductive Outcome where
  | returned (state : SliceRenderer) (events : List Event)
  | threw (message : String) (state : SliceRenderer) (events : List Event)
  deriving DecidableEq

/-- Object state at the end of the call. -/
def Outcome.state : Outcome → SliceRenderer
  | .returned s _ => s
  | .threw _ s _ => s

/-- Events issued by the call. -/
def Outcome.events : Outcome → List Event
  | .returned _ ev => ev
  | .threw _ _ ev => ev

/-- The call ended by a `throw`. -/
def Outcome.isError : Outcome → Bool
  | .returned _ _ => false
  | .threw _ _ _ => true

/-! ## SliceRenderer.cpp -/

/-- Extent of the image along the axis of a slice plane: `getWidth` for
`PLANE_X`, `getHeight` for `PLANE_Y`, `getDepth` for `PLANE_Z`. -/
def extent (plane : PlaneType) (input : Image) : Nat :=
  match plane with
  | .PLANE_X => input.width
  | .PLANE_Y => input.height
  | .PLANE_Z => input.depth

/-- The frame `execute` works on (lines 34-39): the next frame of a dynamic
input, the input itself otherwise; the second component is the input object
after the call. `none` when `getNextFrame` raises. -/
def fetchInput : ImageData → Option (Image × ImageData)
  | .staticImage img => some (img, .staticImage img)
  | .dynamicImage frames =>
    match getNextFrame frames with
    | none => none
    | some (frame, rest) => some (frame, .dynamicImage rest)

/-- Lines 58-90 of `execute`: the local `sliceNr`; `none` is the `throw` of
line 89. -/
def determineSliceNr (mSliceNr : Int) (mSlicePlane : PlaneType) (input : Image) : Option Nat :=
  if mSliceNr = -1 then
    match mSlicePlane with
    | .PLANE_X => some (input.width / 2)
    | .PLANE_Y => some (input.height / 2)
    | .PLANE_Z => some (input.depth / 2)
  else if mSliceNr ≥ 0 then
    let sliceNr := toUnsigned mSliceNr
    match mSlicePlane with
    | .PLANE_X =>
      if sliceNr ≥ input.width then some (toUnsigned ((input.width : Int) - 1)) else some sliceNr
    | .PLANE_Y =>
      if sliceNr ≥ input.height then some (toUnsigned ((input.height : Int) - 1)) else some sliceNr
    | .PLANE_Z =>
      if sliceNr ≥ input.depth then some (toUnsigned ((input.depth : Int) - 1)) else some sliceNr
  else
    none

/-- Lines 91-108 of `execute`: `slicePlaneNr` and the new `mWidth`, `mHeight`. -/
def planeGeometry (mSlicePlane : PlaneType) (input : Image) : Nat × Nat × Nat :=
  match mSlicePlane with
  | .PLANE_X => (0, input.height, input.depth)
  | .PLANE_Y => (1, input.width, input.depth)
  | .PLANE_Z => (2, input.width, input.height)

/-- Path of the kernel source handed to `createProgramFromSource`, relative to
`FAST_SOURCE_DIR`. -/
def kernelSourceFile : String := "/Visualization/SliceRenderer/SliceRenderer.cl"

/-- Lines 191-198: the build options chosen for a data type. -/
def buildOptionsFor (type : DataType) : String :=
  if type = .TYPE_FLOAT then "-DTYPE_FLOAT"
  else if type = .TYPE_INT8 ∨ type = .TYPE_INT16 then "-DTYPE_INT"
  else "-DTYPE_UINT"

/-- Embedding of `SliceRenderer::recompileOpenCLCode`. -/
def recompileOpenCLCode (r : SliceRenderer) (input : Image) : SliceRenderer × List Event :=
  let recompile : Bool :=
    if !r.mTextureIsCreated then true
    else if r.mTypeCLCodeCompiledFor ≠ input.dataType then true
    else false
  if !recompile then (r, [])
  else
    let buildOptions := buildOptionsFor input.dataType
    let kernel : Kernel :=
      { program := some buildOptions, arg0 := none, arg1 := none, arg2 := none,
        arg3 := none, arg4 := none, arg5 := none }
    ({ r with mKernel := kernel, mTypeCLCodeCompiledFor := input.dataType },
      [Event.createProgramFromSource kernelSourceFile buildOptions])

/-- Lines 91-171 of `execute`: everything after the slice number is known.
`newTexture` is the name `glGenTextures` hands out. -/
def renderSlice (newTexture : Nat) (r : SliceRenderer) (input : Image)
    (window level : ℚ) (sliceNr : Nat) : Outcome :=
  let slicePlaneNr := (planeGeometry r.mSlicePlane input).1
  let r := { r with mWidth := (planeGeometry r.mSlicePlane input).2.1,
                    mHeight := (planeGeometry r.mSlicePlane input).2.2 }
  let r := { r with mSliceNr := toInt sliceNr }
  let ev1 := [Event.getOpenCLImageAccess3D input, Event.glEnable]
  let ev2 := if r.mTextureIsCreated then [Event.glDeleteTextures r.mTexture] else []
  let r := { r with mTexture := newTexture }
  let ev3 := [Event.glGenTextures r.mTexture, Event.glBindTexture r.mTexture,
    Event.glTexParameteri "GL_TEXTURE_MAG_FILTER" "GL_LINEAR",
    Event.glTexParameteri "GL_TEXTURE_MIN_FILTER" "GL_LINEAR",
    Event.glTexImage2D (toInt r.mWidth) (toInt r.mHeight), Event.glBindTexture 0,
    Event.glFinish]
  let r := { r with mImageGL := some r.mTexture }
  let ev4 := [Event.createImageGL r.mTexture, Event.enqueueAcquireGLObjects r.mTexture]
  let rc := recompileOpenCLCode r input
  let r := rc.1
  let kernel : Kernel :=
    { r.mKernel with arg0 := some input, arg1 := r.mImageGL, arg2 := some sliceNr,
                     arg3 := some level, arg4 := some window, arg5 := some slicePlaneNr }
  let r := { r with mKernel := kernel }
  let ev5 := [Event.enqueueNDRangeKernel r.mKernel r.mWidth r.mHeight,
    Event.enqueueReleaseGLObjects r.mTexture, Event.finish]
  Outcome.returned { r with mTextureIsCreated := true } (ev1 ++ ev2 ++ ev3 ++ ev4 ++ rc.2 ++ ev5)

/-- Embedding of `SliceRenderer::execute`. -/
def execute (hf : HelperFunctions) (newTexture : Nat) (r : SliceRenderer) : Outcome :=
  match r.mInput with
  | none => Outcome.threw "No input was given to SliceRenderer" r []
  | some data =>
    match fetchInput data with
    | none => Outcome.threw "StreamExhausted" r []
    | some (input, data1) =>
      let r := { r with mInput := some data1 }
      if input.dimensions ≠ 3 then
        Outcome.threw "The SliceRenderer only supports 3D images" r []
      else
        let window := if r.mWindow = -1 then hf.getDefaultIntensityWindow input.dataType else r.mWindow
        let level := if r.mLevel = -1 then hf.getDefaultIntensityLevel input.dataType else r.mLevel
        match determineSliceNr r.mSliceNr r.mSlicePlane input with
        | none => Outcome.threw "Slice to render was below 0 in SliceRenderer" r []
        | some sliceNr => renderSlice newTexture r input window level sliceNr

/-- Embedding of `SliceRenderer::setInput`; `setParent` records the object as
the parent link. -/
def setInput (r : SliceRenderer) (image : Option ImageData) : SliceRenderer :=
  let r := { r with mInput := image }
  let r := { r with mParent := r.mInput }
  { r with mIsModified := true }

/-- Embedding of the constructor `SliceRenderer::SliceRenderer`: `raw` holds the
members the constructor body does not assign; the smart pointer `mInput` starts
out invalid. -/
def SliceRenderer.new (raw : SliceRenderer) : SliceRenderer :=
  { raw with mInput := none, mTextureIsCreated := false, mIsModified := true,
             mSlicePlane := .PLANE_Z, mSliceNr := -1, mScale := 1 }

/-- Embedding of `SliceRenderer::draw`: the state after the call and the OpenGL
calls made. -/
def draw (r : SliceRenderer) : SliceRenderer × List Event :=
  if !r.mTextureIsCreated then (r, [])
  else
    let quad : List Event :=
      match r.mSlicePlane with
      | .PLANE_Z =>
        [Event.glTexCoord2i 0 1, Event.glVertex3f 0 r.mHeight r.mSliceNr,
         Event.glTexCoord2i 1 1, Event.glVertex3f r.mWidth r.mHeight r.mSliceNr,
         Event.glTexCoord2i 1 0, Event.glVertex3f r.mWidth 0 r.mSliceNr,
         Event.glTexCoord2i 0 0, Event.glVertex3f 0 0 r.mSliceNr]
      | .PLANE_Y =>
        [Event.glTexCoord2i 0 1, Event.glVertex3f 0 r.mSliceNr r.mHeight,
         Event.glTexCoord2i 1 1, Event.glVertex3f r.mWidth r.mSliceNr r.mHeight,
         Event.glTexCoord2i 1 0, Event.glVertex3f r.mWidth r.mSliceNr 0,
         Event.glTexCoord2i 0 0, Event.glVertex3f 0 r.mSliceNr 0]
      | .PLANE_X =>
        [Event.glTexCoord2i 0 1, Event.glVertex3f r.mSliceNr 0 r.mHeight,
         Event.glTexCoord2i 1 1, Event.glVertex3f r.mSliceNr r.mWidth r.mHeight,
         Event.glTexCoord2i 1 0, Event.glVertex3f r.mSliceNr r.mWidth 0,
         Event.glTexCoord2i 0 0, Event.glVertex3f r.mSliceNr 0 0]
    (r, [Event.glBindTexture r.mTexture, Event.glColor3f 1 1 1, Event.glBegin]
          ++ quad ++ [Event.glEnd, Event.glBindTexture 0])

/-- Embedding of `SliceRenderer::setSliceToRender`; the `unsigned int` argument
is converted to the `int` member. -/
def setSliceToRender (r : SliceRenderer) (sliceNr : Nat) : SliceRenderer :=
  let r := { r with mSliceNr := toInt (sliceNr % UINT_SIZE) }
  { r with mIsModified := true }

/-- Embedding of `SliceRenderer::setSlicePlane`. -/
def setSlicePlane (r : SliceRenderer) (plane : PlaneType) : SliceRenderer :=
  let r := { r with mSlicePlane := plane }
  { r with mIsModified := true }

/-! ## main.cpp -/

/-- The loop `while(--i) { dynamicImage->update(); }` of `main` (lines 84-86):
`calls` counts the invocations of `update`; `fuel` bounds the number of
evaluations of the loop condition, `none` when it is used up. -/
def updateLoop : Nat → Int → Nat → Option (Int × Nat)
  | 0, _, _ => none
  | fuel + 1, i, calls =>
    let i := toInt (i - 1)
    if i ≠ 0 then updateLoop fuel i (calls + 1) else some (i, calls)

/-- Lines 83-86 of `main`: `int i = 4;` followed by the loop; the result is the
number of `update` calls. -/
def mainStreamingUpdates (fuel : Nat) : Option Nat :=
  (updateLoop fuel 4 0).map Prod.snd

/-! ## Scenario used in the concrete evaluations -/

/-- Helper functions returning fixed defaults. -/
def sampleHelpers : HelperFunctions :=
  { getDefaultIntensityWindow := fun _ => 255, getDefaultIntensityLevel := fun _ => 127 }

/-- A 3D image of 10 x 20 x 30 voxels. -/
def sampleImage : Image :=
  { dimensions := 3, width := 10, height := 20, depth := 30, dataType := .otherType 0 }

/-- A freshly constructed renderer. -/
def freshRenderer : SliceRenderer :=
  SliceRenderer.new
    { mInput := none, mParent := none, mIsModified := false, mImageGL := none, mTexture := 0,
      mTextureIsCreated := true,
      mKernel := { program := none, arg0 := none, arg1 := none, arg2 := none, arg3 := none,
                   arg4 := none, arg5 := none },
      mTypeCLCodeCompiledFor := .TYPE_FLOAT, mSlicePlane := .PLANE_X, mSliceNr := 0,
      mScale := 0, mWindow := -1, mLevel := -1, mWidth := 0, mHeight := 0 }

/-- A fresh renderer wired to the static sample image. -/
def sampleRenderer : SliceRenderer :=
  setInput freshRenderer (some (.staticImage sampleImage))

/-- A 3D image of 10 x 20 voxels and no slice along z. -/
def emptyImage : Image :=
  { dimensions := 3, width := 10, height := 20, depth := 0, dataType := .otherType 0 }

/-- A fresh renderer wired to the static image without slices. -/
def emptyRenderer : SliceRenderer :=
  setInput freshRenderer (some (.staticImage emptyImage))

/-- A 3D image that is `2^31` voxels wide. -/
def wideImage : Image :=
  { dimensions := 3, width := 2147483648, height := 1, depth := 1, dataType := .otherType 0 }

/-- A fresh renderer wired to the static wide image. -/
def wideRenderer : SliceRenderer :=
  setInput freshRenderer (some (.staticImage wideImage))

/-- The frame `execute` would work on: `none` without input or when the dynamic
input has no further frame. -/
def inputFrame (r : SliceRenderer) : Option Image :=
  match r.mInput with
  | none => none
  | some data => (fetchInput data).map Prod.fst

/-- The event is work handed to the compute device (OpenCL or the device
object), as opposed to an OpenGL drawing call. -/
def Event.isDeviceWork : Event → Bool
  | .getOpenCLImageAccess3D _ => true
  | .createImageGL _ => true
  | .enqueueAcquireGLObjects _ => true
  | .createProgramFromSource _ _ => true
  | .enqueueNDRangeKernel _ _ _ => true
  | .enqueueReleaseGLObjects _ => true
  | .finish => true
  | _ => false

/-- The event is a request to the device for a program. -/
def Event.isCompile : Event → Bool
  | .createProgramFromSource _ _ => true
  | _ => false

/-- Whether `recompileOpenCLCode` has to recompile (lines 182-188). -/
def needsRecompile (r : SliceRenderer) (input : Image) : Bool :=
  !r.mTextureIsCreated || decide (r.mTypeCLCodeCompiledFor ≠ input.dataType)

/-- The event is one of the calls that make up the quad: a texture coordinate
or a vertex. -/
def Event.isQuadCall : Event → Bool
  | .glTexCoord2i _ _ => true
  | .glVertex3f _ _ _ => true
  | _ => false

/-- The quad among the calls of `draw`: its texture coordinates and vertices,
in order. -/
def quadOf (events : List Event) : List Event := events.filter Event.isQuadCall

/-- A call of one of the two parameter setters. -/
inductive SetterCall where
  | setSliceToRender (sliceNr : Nat)
  | setSlicePlane (plane : PlaneType)
  deriving DecidableEq, Repr

/-- Effect of one setter call. -/
def SetterCall.apply (r : SliceRenderer) : SetterCall → SliceRenderer
  | .setSliceToRender sliceNr => fast.setSliceToRender r sliceNr
  | .setSlicePlane plane => fast.setSlicePlane r plane

/-- Effect of a sequence of setter calls, first call first. -/
def applySetters (r : SliceRenderer) (calls : List SetterCall) : SliceRenderer :=
  calls.foldl SetterCall.apply r

/-- The sample renderer after its first `execute`. -/
def renderedSample : SliceRenderer := (execute sampleHelpers 1 sampleRenderer).state

/-! ## Basic facts about `execute` -/

theorem renderSlice_returned (newTexture : Nat) (r : SliceRenderer) (input : Image)
    (window level : ℚ) (sliceNr : Nat) :
    ∃ s ev, renderSlice newTexture r input window level sliceNr = Outcome.returned s ev :=
  ⟨_, _, rfl⟩

theorem execute_eq_renderSlice (hf : HelperFunctions) (newTexture : Nat) (r : SliceRenderer)
    (data data1 : ImageData) (input : Image) (sliceNr : Nat)
    (hin : r.mInput = some data) (hfetch : fetchInput data = some (input, data1))
    (hdim : input.dimensions = 3)
    (hslice : determineSliceNr r.mSliceNr r.mSlicePlane input = some sliceNr) :
    execute hf newTexture r =
      renderSlice newTexture { r with mInput := some data1 } input
        (if r.mWindow = -1 then hf.getDefaultIntensityWindow input.dataType else r.mWindow)
        (if r.mLevel = -1 then hf.getDefaultIntensityLevel input.dataType else r.mLevel)
        sliceNr := by
  simp [execute, hin, hfetch, hdim, hslice]

theorem determineSliceNr_eq_none_iff (m : Int) (plane : PlaneType) (input : Image) :
    determineSliceNr m plane input = none ↔ m < -1 := by
  unfold determineSliceNr
  constructor
  · intro h
    by_contra hn
    by_cases h1 : m = -1
    · simp [h1] at h
      cases plane <;> simp at h
    · have h0 : m ≥ 0 := by omega
      simp only [h1, h0, if_true, if_false] at h
      cases plane <;> simp only at h <;> split at h <;> simp at h
  · intro h
    have h1 : ¬ m = -1 := by omega
    have h0 : ¬ m ≥ 0 := by omega
    simp [h1, h0]

theorem recompileOpenCLCode_eq (r : SliceRenderer) (input : Image) :
    recompileOpenCLCode r input =
      if needsRecompile r input then
        ({ r with mKernel := { program := some (buildOptionsFor input.dataType), arg0 := none,
                               arg1 := none, arg2 := none, arg3 := none, arg4 := none,
                               arg5 := none },
                  mTypeCLCodeCompiledFor := input.dataType },
          [Event.createProgramFromSource kernelSourceFile (buildOptionsFor input.dataType)])
      else (r, []) := by
  unfold recompileOpenCLCode needsRecompile
  cases hc : r.mTextureIsCreated <;>
    by_cases ht : r.mTypeCLCodeCompiledFor = input.dataType <;> simp [ht]

theorem recompileOpenCLCode_frame (r : SliceRenderer) (input : Image) :
    (recompileOpenCLCode r input).1.mTypeCLCodeCompiledFor = input.dataType
      ∧ (recompileOpenCLCode r input).1.mSliceNr = r.mSliceNr
      ∧ (recompileOpenCLCode r input).1.mSlicePlane = r.mSlicePlane
      ∧ (recompileOpenCLCode r input).1.mWidth = r.mWidth
      ∧ (recompileOpenCLCode r input).1.mHeight = r.mHeight
      ∧ (recompileOpenCLCode r input).1.mInput = r.mInput
      ∧ (recompileOpenCLCode r input).1.mTexture = r.mTexture
      ∧ (recompileOpenCLCode r input).1.mImageGL = r.mImageGL
      ∧ (recompileOpenCLCode r input).1.mWindow = r.mWindow
      ∧ (recompileOpenCLCode r input).1.mLevel = r.mLevel
      ∧ (recompileOpenCLCode r input).2.countP Event.isCompile
          = if needsRecompile r input then 1 else 0 := by
  rw [recompileOpenCLCode_eq]
  by_cases h : needsRecompile r input = true
  · simp [h, Event.isCompile]
  · simp only [h]
    simp only [needsRecompile, Bool.or_eq_true, Bool.not_eq_true', decide_eq_true_eq,
      not_or, Bool.not_eq_false, not_not] at h
    simp [h.2]

/-- What `renderSlice` leaves behind: it returns, and the members and events
are as listed. -/
theorem renderSlice_spec (newTexture : Nat) (r : SliceRenderer) (input : Image)
    (window level : ℚ) (sliceNr : Nat) :
    ∃ s ev, renderSlice newTexture r input window level sliceNr = Outcome.returned s ev
      ∧ s.mSliceNr = toInt sliceNr
      ∧ s.mSlicePlane = r.mSlicePlane
      ∧ s.mWidth = (planeGeometry r.mSlicePlane input).2.1
      ∧ s.mHeight = (planeGeometry r.mSlicePlane input).2.2
      ∧ s.mTextureIsCreated = true
      ∧ s.mTypeCLCodeCompiledFor = input.dataType
      ∧ s.mInput = r.mInput
      ∧ s.mTexture = newTexture
      ∧ s.mWindow = r.mWindow ∧ s.mLevel = r.mLevel
      ∧ s.mKernel.arg2 = some sliceNr
      ∧ s.mKernel.arg5 = some (planeGeometry r.mSlicePlane input).1
      ∧ s.mKernel.arg3 = some level ∧ s.mKernel.arg4 = some window
      ∧ Event.glTexImage2D (toInt s.mWidth) (toInt s.mHeight) ∈ ev
      ∧ Event.enqueueNDRangeKernel s.mKernel s.mWidth s.mHeight ∈ ev
      ∧ ev.countP Event.isCompile = if needsRecompile r input then 1 else 0 := by
  unfold renderSlice
  generalize toInt (sliceNr : Int) = v
  generalize planeGeometry r.mSlicePlane input = g
  refine ⟨_, _, rfl, ?_⟩
  simp only [recompileOpenCLCode_eq]
  have hn : needsRecompile
      { r with mWidth := g.2.1, mHeight := g.2.2, mSliceNr := v, mTexture := newTexture,
               mImageGL := some newTexture } input = needsRecompile r input := rfl
  rw [hn]
  by_cases h : needsRecompile r input = true
  · simp only [h, if_true, true_and]
    refine ⟨?_, ?_, ?_⟩
    · simp
    · simp
    · cases hc : r.mTextureIsCreated <;> simp [List.countP_cons, Event.isCompile]
  · have h2 : r.mTypeCLCodeCompiledFor = input.dataType := by
      simp only [needsRecompile, Bool.or_eq_true, Bool.not_eq_true', decide_eq_true_eq,
        not_or, Bool.not_eq_false, not_not] at h
      exact h.2
    have hf : needsRecompile r input = false := by simpa using h
    simp only [hf, Bool.false_eq_true, if_false, true_and, h2]
    refine ⟨?_, ?_, ?_⟩
    · simp
    · simp
    · cases hc : r.mTextureIsCreated <;> simp [List.countP_cons, Event.isCompile]

/-- A returning `execute` went through every guard and ended in `renderSlice`. -/
theorem execute_returned_inv (hf : HelperFunctions) (newTexture : Nat) (r s : SliceRenderer)
    (ev : List Event) (h : execute hf newTexture r = Outcome.returned s ev) :
    ∃ data data1 input sliceNr, r.mInput = some data ∧ fetchInput data = some (input, data1)
      ∧ input.dimensions = 3
      ∧ determineSliceNr r.mSliceNr r.mSlicePlane input = some sliceNr
      ∧ inputFrame r = some input
      ∧ renderSlice newTexture { r with mInput := some data1 } input
          (if r.mWindow = -1 then hf.getDefaultIntensityWindow input.dataType else r.mWindow)
          (if r.mLevel = -1 then hf.getDefaultIntensityLevel input.dataType else r.mLevel)
          sliceNr = Outcome.returned s ev := by
  cases hin : r.mInput with
  | none => simp [execute, hin] at h
  | some data =>
    cases hfetch : fetchInput data with
    | none => simp [execute, hin, hfetch] at h
    | some p =>
      obtain ⟨input, data1⟩ := p
      by_cases hdim : input.dimensions = 3
      · cases hs : determineSliceNr r.mSliceNr r.mSlicePlane input with
        | none => simp [execute, hin, hfetch, hdim, hs] at h
        | some sliceNr =>
          rw [execute_eq_renderSlice hf newTexture r data data1 input sliceNr hin hfetch hdim hs] at h
          exact ⟨data, data1, input, sliceNr, rfl, hfetch, hdim, hs,
            by simp [inputFrame, hin, hfetch], h⟩
      · simp [execute, hin, hfetch, hdim] at h

/-! ## Arithmetic of the slice number -/

theorem toUnsigned_of_nonneg (m : Int) (h0 : 0 ≤ m) (h1 : m < (UINT_SIZE : Int)) :
    toUnsigned m = m.toNat := by
  unfold toUnsigned
  rw [Int.emod_eq_of_lt h0 h1]

theorem toUnsigned_pred (e : Nat) (hpos : 0 < e) (he : isUInt e) :
    toUnsigned ((e : Int) - 1) = e - 1 := by
  unfold isUInt UINT_SIZE at he
  rw [toUnsigned_of_nonneg _ (by omega) (by unfold UINT_SIZE; omega)]
  omega

theorem toInt_of_small (n : Nat) (h : n < INT_SIZE) : toInt (n : Int) = (n : Int) := by
  unfold INT_SIZE at h
  have hmod : (n : Int) % (UINT_SIZE : Int) = (n : Int) :=
    Int.emod_eq_of_lt (by omega) (by unfold UINT_SIZE; omega)
  unfold toInt
  rw [hmod]
  have : (n : Int) < (INT_SIZE : Int) := by unfold INT_SIZE; omega
  simp [this]

theorem determineSliceNr_sentinel (plane : PlaneType) (input : Image) :
    determineSliceNr (-1) plane input = some (extent plane input / 2) := by
  cases plane <;> simp [determineSliceNr, extent]

theorem determineSliceNr_nonneg (m : Int) (plane : PlaneType) (input : Image)
    (h0 : 0 ≤ m) (h1 : m < (INT_SIZE : Int)) :
    determineSliceNr m plane input =
      some (if extent plane input ≤ m.toNat then toUnsigned ((extent plane input : Int) - 1)
            else m.toNat) := by
  have hne : ¬ m = -1 := by omega
  have hu : toUnsigned m = m.toNat :=
    toUnsigned_of_nonneg m h0 (by unfold INT_SIZE at h1; unfold UINT_SIZE; omega)
  unfold determineSliceNr
  simp only [hne, if_false, ge_iff_le, h0, if_true, hu]
  cases plane <;> simp only [extent] <;> split <;> rfl

/-- The local `sliceNr` for a stored slice number that is the sentinel or a
valid `int` index, on an image with a slice along the selected axis: it is
inside the image, it is the middle slice for the sentinel, and it is the stored
number capped at `extent - 1` otherwise. -/
theorem determineSliceNr_spec (m : Int) (plane : PlaneType) (input : Image)
    (hlo : -1 ≤ m) (hhi : m < (INT_SIZE : Int)) (hpos : 0 < extent plane input)
    (hrange : isUInt (extent plane input)) :
    ∃ sliceNr, determineSliceNr m plane input = some sliceNr
      ∧ sliceNr < extent plane input
      ∧ sliceNr < INT_SIZE
      ∧ (m = -1 → sliceNr = extent plane input / 2)
      ∧ (0 ≤ m → (sliceNr : Int) = min m ((extent plane input : Int) - 1)) := by
  by_cases hs : m = -1
  · subst hs
    refine ⟨_, determineSliceNr_sentinel plane input, ?_, ?_, fun _ => rfl, ?_⟩
    · omega
    · unfold isUInt UINT_SIZE at hrange
      unfold INT_SIZE
      omega
    · intro h
      omega
  · have h0 : 0 ≤ m := by omega
    refine ⟨_, determineSliceNr_nonneg m plane input h0 hhi, ?_, ?_, fun h => absurd h hs, ?_⟩
    · split
      · rw [toUnsigned_pred _ hpos hrange]
        omega
      · omega
    · unfold INT_SIZE at hhi ⊢
      split
      · rw [toUnsigned_pred _ hpos hrange]
        omega
      · omega
    · intro _
      split
      · rw [toUnsigned_pred _ hpos hrange]
        omega
      · omega

/-- The extent along the selected axis is an `unsigned int` when all three are. -/
theorem isUInt_extent (plane : PlaneType) (input : Image) (h : input.inRange) :
    isUInt (extent plane input) := by
  obtain ⟨hw, hh, hd⟩ := h
  cases plane
  · exact hw
  · exact hh
  · exact hd

/-- A static input is delivered as it is and stays as it is. -/
theorem fetchInput_static (img : Image) :
    fetchInput (.staticImage img) = some (img, .staticImage img) := rfl

/-- What a call of `execute` that passes the three guards returns. -/
theorem execute_spec (hf : HelperFunctions) (newTexture : Nat) (r : SliceRenderer)
    (data data1 : ImageData) (input : Image) (sliceNr : Nat)
    (hin : r.mInput = some data) (hfetch : fetchInput data = some (input, data1))
    (hdim : input.dimensions = 3)
    (hslice : determineSliceNr r.mSliceNr r.mSlicePlane input = some sliceNr) :
    ∃ s ev, execute hf newTexture r = Outcome.returned s ev
      ∧ s.mSliceNr = toInt sliceNr
      ∧ s.mSlicePlane = r.mSlicePlane
      ∧ s.mWidth = (planeGeometry r.mSlicePlane input).2.1
      ∧ s.mHeight = (planeGeometry r.mSlicePlane input).2.2
      ∧ s.mTextureIsCreated = true
      ∧ s.mTypeCLCodeCompiledFor = input.dataType
      ∧ s.mInput = some data1
      ∧ s.mTexture = newTexture
      ∧ s.mWindow = r.mWindow ∧ s.mLevel = r.mLevel
      ∧ s.mKernel.arg2 = some sliceNr
      ∧ s.mKernel.arg5 = some (planeGeometry r.mSlicePlane input).1
      ∧ s.mKernel.arg3 =
          some (if r.mLevel = -1 then hf.getDefaultIntensityLevel input.dataType else r.mLevel)
      ∧ s.mKernel.arg4 =
          some (if r.mWindow = -1 then hf.getDefaultIntensityWindow input.dataType
                else r.mWindow)
      ∧ Event.glTexImage2D (toInt s.mWidth) (toInt s.mHeight) ∈ ev
      ∧ Event.enqueueNDRangeKernel s.mKernel s.mWidth s.mHeight ∈ ev
      ∧ ev.countP Event.isCompile = if needsRecompile r input then 1 else 0 := by
  rw [execute_eq_renderSlice hf newTexture r data data1 input sliceNr hin hfetch hdim hslice]
  exact renderSlice_spec newTexture { r with mInput := some data1 } input _ _ sliceNr

/-- What is known of the state and events of a call of `execute` that returned. -/
theorem execute_returned_spec (hf : HelperFunctions) (newTexture : Nat) (r s : SliceRenderer)
    (ev : List Event) (h : execute hf newTexture r = Outcome.returned s ev) :
    ∃ input sliceNr, inputFrame r = some input ∧ input.dimensions = 3
      ∧ determineSliceNr r.mSliceNr r.mSlicePlane input = some sliceNr
      ∧ s.mSliceNr = toInt sliceNr
      ∧ s.mSlicePlane = r.mSlicePlane
      ∧ s.mWidth = (planeGeometry r.mSlicePlane input).2.1
      ∧ s.mHeight = (planeGeometry r.mSlicePlane input).2.2
      ∧ s.mTextureIsCreated = true
      ∧ s.mTypeCLCodeCompiledFor = input.dataType
      ∧ ev.countP Event.isCompile = if needsRecompile r input then 1 else 0 := by
  obtain ⟨data, data1, input, n, hin, hfetch, hdim, hs, hfr, _⟩ :=
    execute_returned_inv hf newTexture r s ev h
  obtain ⟨s1, ev1, hex, hnr, hpl, hw, hh, hcr, hty, _, _, _, _, _, _, _, _, _, _, hcount⟩ :=
    execute_spec hf newTexture r data data1 input n hin hfetch hdim hs
  rw [h] at hex
  injection hex with hs_eq hev_eq
  subst hs_eq
  subst hev_eq
  exact ⟨input, n, hfr, hdim, hs, hnr, hpl, hw, hh, hcr, hty, hcount⟩

theorem applySetters_frame (r : SliceRenderer) (calls : List SetterCall) :
    (applySetters r calls).mWidth = r.mWidth ∧ (applySetters r calls).mHeight = r.mHeight
      ∧ (applySetters r calls).mTexture = r.mTexture
      ∧ (applySetters r calls).mTextureIsCreated = r.mTextureIsCreated := by
  induction calls generalizing r with
  | nil => exact ⟨rfl, rfl, rfl, rfl⟩
  | cons c rest ih =>
    have h := ih (SetterCall.apply r c)
    have hc : (SetterCall.apply r c).mWidth = r.mWidth ∧ (SetterCall.apply r c).mHeight = r.mHeight
        ∧ (SetterCall.apply r c).mTexture = r.mTexture
        ∧ (SetterCall.apply r c).mTextureIsCreated = r.mTextureIsCreated := by
      cases c <;> exact ⟨rfl, rfl, rfl, rfl⟩
    simp only [applySetters, List.foldl_cons] at h ⊢
    rw [h.1, h.2.1, h.2.2.1, h.2.2.2]
    exact hc

/-- The calls of `draw` depend on the renderer only through the texture, the
creation flag, the plane, the slice number, the width and the height. -/
theorem draw_congr (a b : SliceRenderer) (h1 : a.mTextureIsCreated = b.mTextureIsCreated)
    (h2 : a.mTexture = b.mTexture) (h3 : a.mSlicePlane = b.mSlicePlane)
    (h4 : a.mSliceNr = b.mSliceNr) (h5 : a.mWidth = b.mWidth) (h6 : a.mHeight = b.mHeight) :
    (draw a).2 = (draw b).2 := by
  unfold draw
  rw [h1, h2, h3, h4, h5, h6]
  split <;> rfl

/-- C2. Provided the frame can be obtained whenever there is an input,
`execute` throws exactly when the input reference is invalid, or the frame is
not three-dimensional, or `mSliceNr` is below the sentinel `-1`; in particular
a stored slice number at or above the extent of the selected axis does not make
it throw. -/
theorem execute_throws_iff (hf : HelperFunctions) (newTexture : Nat) (r : SliceRenderer)
    (hframe : ∀ data, r.mInput = some data → (fetchInput data).isSome = true) :
    ((execute hf newTexture r).isError = true ↔
        (r.mInput = none ∨ (∃ input, inputFrame r = some input ∧ input.dimensions ≠ 3)
          ∨ r.mSliceNr < -1))
      ∧ (∀ input, inputFrame r = some input → input.dimensions = 3 →
          (extent r.mSlicePlane input : Int) ≤ r.mSliceNr →
          (execute hf newTexture r).isError = false) := by
  have key : (execute hf newTexture r).isError = true ↔
      (r.mInput = none ∨ (∃ input, inputFrame r = some input ∧ input.dimensions ≠ 3)
        ∨ r.mSliceNr < -1) := by
    cases hin : r.mInput with
    | none => simp [execute, hin, Outcome.isError]
    | some data =>
      have hsome := hframe data hin
      cases hfetch : fetchInput data with
      | none => simp [hfetch] at hsome
      | some p =>
        obtain ⟨input, data1⟩ := p
        have hfr : inputFrame r = some input := by simp [inputFrame, hin, hfetch]
        by_cases hdim : input.dimensions = 3
        · cases hs : determineSliceNr r.mSliceNr r.mSlicePlane input with
          | none =>
            have hlt := (determineSliceNr_eq_none_iff _ _ _).1 hs
            simp [execute, hin, hfetch, hdim, hs, Outcome.isError, hlt]
          | some sliceNr =>
            have hnlt : ¬ r.mSliceNr < -1 := by
              intro hlt
              rw [(determineSliceNr_eq_none_iff _ _ _).2 hlt] at hs
              cases hs
            rw [execute_eq_renderSlice hf newTexture r data data1 input sliceNr hin hfetch hdim hs]
            simp [renderSlice, Outcome.isError, hfr, hdim, hnlt]
        · have : (execute hf newTexture r).isError = true := by
            simp [execute, hin, hfetch, hdim, Outcome.isError]
          simp only [this, true_iff]
          exact Or.inr (Or.inl ⟨input, hfr, hdim⟩)
  refine ⟨key, ?_⟩
  intro input hfr hdim hge
  cases hres : (execute hf newTexture r).isError with
  | false => rfl
  | true =>
    exfalso
    rcases key.1 hres with h | ⟨i2, h2, h3⟩ | h
    · simp [inputFrame, h] at hfr
    · rw [hfr] at h2
      cases h2
      exact h3 hdim
    · have : (0 : Int) ≤ (extent r.mSlicePlane input : Int) := Int.ofNat_nonneg _
      omega

/-- Witness for C2: a renderer whose stored slice number is `-5`. -/
theorem execute_throws_iff_witness :
    (execute sampleHelpers 1 { sampleRenderer with mSliceNr := -5 }).isError = true ↔
      (({ sampleRenderer with mSliceNr := -5 } : SliceRenderer).mInput = none
        ∨ (∃ input, inputFrame { sampleRenderer with mSliceNr := -5 } = some input
              ∧ input.dimensions ≠ 3)
        ∨ ({ sampleRenderer with mSliceNr := -5 } : SliceRenderer).mSliceNr < -1) :=
  (execute_throws_iff sampleHelpers 1 { sampleRenderer with mSliceNr := -5 }
    (fun data h => by
      have hd := Option.some.inj h
      subst hd
      rfl)).1

/-- C3. When `execute` throws, the members `mSliceNr`, `mSlicePlane`, `mWidth`,
`mHeight`, `mTextureIsCreated`, `mTexture` and `mTypeCLCodeCompiledFor` (and
also the kernel and the CL-GL image) hold the values they had before the call,
and no OpenGL or OpenCL call has been issued. -/
theorem execute_failure_atomic (hf : HelperFunctions) (newTexture : Nat) (r s : SliceRenderer)
    (message : String) (ev : List Event)
    (h : execute hf newTexture r = Outcome.threw message s ev) :
    s.mSliceNr = r.mSliceNr ∧ s.mSlicePlane = r.mSlicePlane ∧ s.mWidth = r.mWidth
      ∧ s.mHeight = r.mHeight ∧ s.mTextureIsCreated = r.mTextureIsCreated
      ∧ s.mTexture = r.mTexture ∧ s.mTypeCLCodeCompiledFor = r.mTypeCLCodeCompiledFor
      ∧ s.mKernel = r.mKernel ∧ s.mImageGL = r.mImageGL ∧ ev = [] := by
  unfold execute at h
  split at h
  · cases h
    simp
  · split at h
    · cases h
      simp
    · simp only at h
      split at h
      · cases h
        simp
      · split at h
        · cases h
          simp
        · unfold renderSlice at h
          exact Outcome.noConfusion h

/-- Witness for C3: the renderer with stored slice number `-5` throws. -/
theorem execute_failure_atomic_witness :
    (execute sampleHelpers 1 { sampleRenderer with mSliceNr := -5 }).state.mSliceNr = -5 :=
  (execute_failure_atomic sampleHelpers 1 { sampleRenderer with mSliceNr := -5 }
    (execute sampleHelpers 1 { sampleRenderer with mSliceNr := -5 }).state
    "Slice to render was below 0 in SliceRenderer" [] rfl).1

/-- C5. Each of `setInput`, `setSliceToRender` and `setSlicePlane` leaves
`mIsModified = true`, writes the member it names (`mInput` with the parent
link, `mSliceNr`, `mSlicePlane`) and leaves every other member as it was; in
particular `mWidth`, `mHeight`, `mTextureIsCreated`, the texture, the CL-GL
image and the kernel are untouched, so none of them executes the node. -/
theorem setters_are_lazy (r : SliceRenderer) (image : Option ImageData) (n : Nat)
    (plane : PlaneType) :
    ((setInput r image).mIsModified = true
        ∧ (setInput r image).mInput = image ∧ (setInput r image).mParent = image
        ∧ (setInput r image).mSliceNr = r.mSliceNr
        ∧ (setInput r image).mSlicePlane = r.mSlicePlane
        ∧ (setInput r image).mWidth = r.mWidth ∧ (setInput r image).mHeight = r.mHeight
        ∧ (setInput r image).mTextureIsCreated = r.mTextureIsCreated
        ∧ (setInput r image).mTexture = r.mTexture ∧ (setInput r image).mImageGL = r.mImageGL
        ∧ (setInput r image).mKernel = r.mKernel
        ∧ (setInput r image).mTypeCLCodeCompiledFor = r.mTypeCLCodeCompiledFor
        ∧ (setInput r image).mScale = r.mScale ∧ (setInput r image).mWindow = r.mWindow
        ∧ (setInput r image).mLevel = r.mLevel)
      ∧ ((setSliceToRender r n).mIsModified = true
        ∧ (setSliceToRender r n).mSliceNr = toInt (n % UINT_SIZE)
        ∧ (setSliceToRender r n).mInput = r.mInput ∧ (setSliceToRender r n).mParent = r.mParent
        ∧ (setSliceToRender r n).mSlicePlane = r.mSlicePlane
        ∧ (setSliceToRender r n).mWidth = r.mWidth ∧ (setSliceToRender r n).mHeight = r.mHeight
        ∧ (setSliceToRender r n).mTextureIsCreated = r.mTextureIsCreated
        ∧ (setSliceToRender r n).mTexture = r.mTexture
        ∧ (setSliceToRender r n).mImageGL = r.mImageGL
        ∧ (setSliceToRender r n).mKernel = r.mKernel
        ∧ (setSliceToRender r n).mTypeCLCodeCompiledFor = r.mTypeCLCodeCompiledFor
        ∧ (setSliceToRender r n).mScale = r.mScale ∧ (setSliceToRender r n).mWindow = r.mWindow
        ∧ (setSliceToRender r n).mLevel = r.mLevel)
      ∧ ((setSlicePlane r plane).mIsModified = true
        ∧ (setSlicePlane r plane).mSlicePlane = plane
        ∧ (setSlicePlane r plane).mInput = r.mInput ∧ (setSlicePlane r plane).mParent = r.mParent
        ∧ (setSlicePlane r plane).mSliceNr = r.mSliceNr
        ∧ (setSlicePlane r plane).mWidth = r.mWidth ∧ (setSlicePlane r plane).mHeight = r.mHeight
        ∧ (setSlicePlane r plane).mTextureIsCreated = r.mTextureIsCreated
        ∧ (setSlicePlane r plane).mTexture = r.mTexture
        ∧ (setSlicePlane r plane).mImageGL = r.mImageGL
        ∧ (setSlicePlane r plane).mKernel = r.mKernel
        ∧ (setSlicePlane r plane).mTypeCLCodeCompiledFor = r.mTypeCLCodeCompiledFor
        ∧ (setSlicePlane r plane).mScale = r.mScale ∧ (setSlicePlane r plane).mWindow = r.mWindow
        ∧ (setSlicePlane r plane).mLevel = r.mLevel) := by
  simp [setInput, setSliceToRender, setSlicePlane]

/-- C7. `draw` leaves the renderer exactly as it was (so no member changes and
no frame is pulled from the input), every call it makes is an OpenGL drawing
call and none is device work, and with `mTextureIsCreated = false`, the value
the constructor sets, it makes no call at all. -/
theorem draw_never_updates (r raw : SliceRenderer) :
    (draw r).1 = r
      ∧ (∀ e ∈ (draw r).2, e.isDeviceWork = false)
      ∧ (r.mTextureIsCreated = false → (draw r).2 = [])
      ∧ (SliceRenderer.new raw).mTextureIsCreated = false
      ∧ (draw (SliceRenderer.new raw)).2 = [] := by
  refine ⟨?_, ?_, ?_, rfl, ?_⟩
  · unfold draw
    split <;> rfl
  · intro e he
    unfold draw at he
    split at he
    · simp at he
    · cases hp : r.mSlicePlane <;> simp [hp] at he <;>
        rcases he with h | h | h | h | h | h | h | h | h | h | h | h | h <;>
        subst h <;> rfl
  · intro h
    simp [draw, h]
  · simp [draw, SliceRenderer.new]

/-- Witness for C7: a renderer on which `execute` never ran draws nothing. -/
theorem draw_never_updates_witness : (draw sampleRenderer).2 = [] :=
  (draw_never_updates sampleRenderer sampleRenderer).2.2.1 rfl

/-- C9, as the code has it. For a stored slice number that is the sentinel `-1`
or a non-negative `int`, and a 3D frame that has at least one slice along the
selected axis, `execute` returns, and the slice number it sets as kernel
argument 2 and stores back in `mSliceNr` lies in `[0, extent)`; for the
sentinel it is `extent / 2`; `mWidth` and `mHeight` are (height, depth) for
`PLANE_X`, (width, depth) for `PLANE_Y` and (width, height) for `PLANE_Z`;
they are the range of the kernel, and `glTexImage2D` receives them converted to
`GLsizei`, which leaves them as they are when they are below `2^31`. -/
theorem execute_slice_inside_image (hf : HelperFunctions) (newTexture : Nat)
    (r : SliceRenderer) (data data1 : ImageData) (input : Image)
    (hin : r.mInput = some data) (hfetch : fetchInput data = some (input, data1))
    (hdim : input.dimensions = 3) (hrange : input.inRange)
    (hpos : 0 < extent r.mSlicePlane input)
    (hlo : -1 ≤ r.mSliceNr) (hhi : r.mSliceNr < (INT_SIZE : Int)) :
    ∃ s ev slice, execute hf newTexture r = Outcome.returned s ev
      ∧ s.mKernel.arg2 = some slice
      ∧ Event.enqueueNDRangeKernel s.mKernel s.mWidth s.mHeight ∈ ev
      ∧ s.mSliceNr = (slice : Int)
      ∧ 0 ≤ s.mSliceNr ∧ s.mSliceNr < (extent r.mSlicePlane input : Int)
      ∧ (r.mSliceNr = -1 → slice = extent r.mSlicePlane input / 2)
      ∧ (s.mWidth, s.mHeight) =
          (match r.mSlicePlane with
            | .PLANE_X => (input.height, input.depth)
            | .PLANE_Y => (input.width, input.depth)
            | .PLANE_Z => (input.width, input.height))
      ∧ Event.glTexImage2D (toInt s.mWidth) (toInt s.mHeight) ∈ ev
      ∧ (s.mWidth < INT_SIZE → s.mHeight < INT_SIZE →
          Event.glTexImage2D s.mWidth s.mHeight ∈ ev) := by
  obtain ⟨slice, hs, hlt, hsmall, hsent, _⟩ :=
    determineSliceNr_spec r.mSliceNr r.mSlicePlane input hlo hhi hpos
      (isUInt_extent _ _ hrange)
  obtain ⟨s, ev, hex, hnr, _, hw, hh, _, _, _, _, _, _, ha2, _, _, _, htex, hk, _⟩ :=
    execute_spec hf newTexture r data data1 input slice hin hfetch hdim hs
  rw [toInt_of_small slice hsmall] at hnr
  refine ⟨s, ev, slice, hex, ha2, hk, hnr, ?_, ?_, hsent, ?_, htex, ?_⟩
  · rw [hnr]
    exact Int.ofNat_nonneg _
  · rw [hnr]
    exact_mod_cast hlt
  · rw [hw, hh]
    cases r.mSlicePlane <;> rfl
  · intro h1 h2
    rw [toInt_of_small _ h1, toInt_of_small _ h2] at htex
    exact htex

/-- Witness for C9: the sample renderer, which holds the sentinel, renders the
middle slice 15 of the 30 slices along z. -/
theorem execute_slice_inside_image_witness :
    ∃ s ev slice, execute sampleHelpers 1 sampleRenderer = Outcome.returned s ev
      ∧ s.mKernel.arg2 = some slice
      ∧ Event.enqueueNDRangeKernel s.mKernel s.mWidth s.mHeight ∈ ev
      ∧ s.mSliceNr = (slice : Int)
      ∧ 0 ≤ s.mSliceNr ∧ s.mSliceNr < (extent sampleRenderer.mSlicePlane sampleImage : Int)
      ∧ (sampleRenderer.mSliceNr = -1 → slice = extent sampleRenderer.mSlicePlane sampleImage / 2)
      ∧ (s.mWidth, s.mHeight) =
          (match sampleRenderer.mSlicePlane with
            | .PLANE_X => (sampleImage.height, sampleImage.depth)
            | .PLANE_Y => (sampleImage.width, sampleImage.depth)
            | .PLANE_Z => (sampleImage.width, sampleImage.height))
      ∧ Event.glTexImage2D (toInt s.mWidth) (toInt s.mHeight) ∈ ev
      ∧ (s.mWidth < INT_SIZE → s.mHeight < INT_SIZE →
          Event.glTexImage2D s.mWidth s.mHeight ∈ ev) :=
  execute_slice_inside_image sampleHelpers 1 sampleRenderer (.staticImage sampleImage)
    (.staticImage sampleImage) sampleImage rfl rfl rfl (by decide) (by decide) (by decide)
    (by decide)

/-- Counterexample to C9 as stated. On the 3D image without slices along z the
selected extent is 0, `execute` still returns, and the slice number handed to
the kernel is 0 from the sentinel and 4294967295 (stored back as `-1`) from a
stored 0: neither is below the extent. On the image `2^31` voxels wide,
`mWidth` is `2^31` and `glTexImage2D` receives the width `-2^31`. -/
theorem execute_slice_outside_empty_image :
    emptyImage.dimensions = 3 ∧ extent emptyRenderer.mSlicePlane emptyImage = 0
      ∧ emptyRenderer.mSliceNr = -1
      ∧ (execute sampleHelpers 1 emptyRenderer).isError = false
      ∧ (execute sampleHelpers 1 emptyRenderer).state.mKernel.arg2 = some 0
      ∧ (execute sampleHelpers 1 emptyRenderer).state.mSliceNr = 0
      ∧ ¬ ((execute sampleHelpers 1 emptyRenderer).state.mSliceNr
            < (extent emptyRenderer.mSlicePlane emptyImage : Int))
      ∧ (execute sampleHelpers 1 { emptyRenderer with mSliceNr := 0 }).isError = false
      ∧ (execute sampleHelpers 1 { emptyRenderer with mSliceNr := 0 }).state.mKernel.arg2
          = some 4294967295
      ∧ (execute sampleHelpers 1 { emptyRenderer with mSliceNr := 0 }).state.mSliceNr = -1
      ∧ (execute sampleHelpers 1 wideRenderer).isError = false
      ∧ (execute sampleHelpers 1 wideRenderer).state.mWidth = 2147483648
      ∧ Event.glTexImage2D (-2147483648) 1 ∈ (execute sampleHelpers 1 wideRenderer).events := by
  refine ⟨rfl, rfl, rfl, by decide, by decide, by decide, by decide, by decide, by decide,
    by decide, by decide, by decide, by decide⟩

/-- C4, as the code has it. On a static 3D image with at least one slice along
the selected axis, a second `execute` that directly follows a returning one
returns as well and reproduces it: the same slice number, plane number, level
and window as kernel arguments, and the same `mSliceNr`, `mSlicePlane`,
`mWidth` and `mHeight`. -/
theorem execute_idempotent (hf : HelperFunctions) (t1 t2 : Nat) (r r1 : SliceRenderer)
    (img : Image) (ev1 : List Event)
    (hin : r.mInput = some (.staticImage img)) (hrange : img.inRange)
    (hpos : 0 < extent r.mSlicePlane img) (hint : isInt r.mSliceNr)
    (h1 : execute hf t1 r = Outcome.returned r1 ev1) :
    ∃ r2 ev2, execute hf t2 r1 = Outcome.returned r2 ev2
      ∧ r2.mKernel.arg2 = r1.mKernel.arg2 ∧ r2.mKernel.arg5 = r1.mKernel.arg5
      ∧ r2.mKernel.arg3 = r1.mKernel.arg3 ∧ r2.mKernel.arg4 = r1.mKernel.arg4
      ∧ r2.mSliceNr = r1.mSliceNr ∧ r2.mSlicePlane = r1.mSlicePlane
      ∧ r2.mWidth = r1.mWidth ∧ r2.mHeight = r1.mHeight := by
  obtain ⟨data, data1, input, n1, hin1, hfetch, hdim, hs1, _, _⟩ :=
    execute_returned_inv hf t1 r r1 ev1 h1
  rw [hin] at hin1
  have hd := Option.some.inj hin1
  subst hd
  rw [fetchInput_static] at hfetch
  have hp := Option.some.inj hfetch
  have hi : img = input := congrArg Prod.fst hp
  have hd1 : ImageData.staticImage img = data1 := congrArg Prod.snd hp
  subst hi
  subst hd1
  have hlo : -1 ≤ r.mSliceNr := by
    by_contra hc
    have hlt : r.mSliceNr < -1 := by omega
    rw [(determineSliceNr_eq_none_iff _ _ _).2 hlt] at hs1
    cases hs1
  obtain ⟨n, hs, hlt, hsmall, _, _⟩ :=
    determineSliceNr_spec r.mSliceNr r.mSlicePlane img hlo hint.2 hpos
      (isUInt_extent _ _ hrange)
  rw [hs1] at hs
  have hn := Option.some.inj hs
  subst hn
  obtain ⟨s, ev, hex, hnr, hpl, hw, hh, _, _, hinp, _, hwin, hlev, ha2, ha5, ha3, ha4, _⟩ :=
    execute_spec hf t1 r (.staticImage img) (.staticImage img) img n1 hin
      (fetchInput_static img) hdim hs1
  rw [h1] at hex
  injection hex with hs_eq hev_eq
  subst hs_eq
  rw [toInt_of_small n1 hsmall] at hnr
  have hs2 : determineSliceNr r1.mSliceNr r1.mSlicePlane img = some n1 := by
    rw [hnr, hpl, determineSliceNr_nonneg _ _ _ (Int.ofNat_nonneg _) (by exact_mod_cast hsmall)]
    have hnot : ¬ extent r.mSlicePlane img ≤ n1 := by omega
    simp only [Int.toNat_ofNat, hnot, if_false]
  obtain ⟨r2, ev2, hex2, hnr2, hpl2, hw2, hh2, _, _, _, _, _, _, hb2, hb5, hb3, hb4, _⟩ :=
    execute_spec hf t2 r1 (.staticImage img) (.staticImage img) img n1 hinp
      (fetchInput_static img) hdim hs2
  refine ⟨r2, ev2, hex2, ?_, ?_, ?_, ?_, ?_, ?_, ?_, ?_⟩
  · rw [hb2, ha2]
  · rw [hb5, ha5, hpl]
  · rw [hb3, ha3, hlev]
  · rw [hb4, ha4, hwin]
  · rw [hnr2, hnr, toInt_of_small n1 hsmall]
  · exact hpl2
  · rw [hw2, hw, hpl]
  · rw [hh2, hh, hpl]

/-- Witness for C4: the sample renderer starts from the sentinel; the renderer
left by its first `execute` reproduces slice 15 on the second `execute`. -/
theorem execute_idempotent_witness :
    ∃ r2 ev2, execute sampleHelpers 2 (execute sampleHelpers 1 sampleRenderer).state
        = Outcome.returned r2 ev2
      ∧ r2.mKernel.arg2 = (execute sampleHelpers 1 sampleRenderer).state.mKernel.arg2
      ∧ r2.mKernel.arg5 = (execute sampleHelpers 1 sampleRenderer).state.mKernel.arg5
      ∧ r2.mKernel.arg3 = (execute sampleHelpers 1 sampleRenderer).state.mKernel.arg3
      ∧ r2.mKernel.arg4 = (execute sampleHelpers 1 sampleRenderer).state.mKernel.arg4
      ∧ r2.mSliceNr = (execute sampleHelpers 1 sampleRenderer).state.mSliceNr
      ∧ r2.mSlicePlane = (execute sampleHelpers 1 sampleRenderer).state.mSlicePlane
      ∧ r2.mWidth = (execute sampleHelpers 1 sampleRenderer).state.mWidth
      ∧ r2.mHeight = (execute sampleHelpers 1 sampleRenderer).state.mHeight :=
  execute_idempotent sampleHelpers 1 2 sampleRenderer
    (execute sampleHelpers 1 sampleRenderer).state sampleImage
    (execute sampleHelpers 1 sampleRenderer).events rfl (by decide) (by decide) (by decide) rfl

/-- Counterexample to C4 as stated. On the static 3D image without slices
along z, the first `execute` returns with slice 0 and stores 0; the second
`execute`, with nothing changed in between, returns with slice 4294967295 and
stores `-1`. -/
theorem execute_not_idempotent_on_empty_image :
    emptyRenderer.mInput = some (.staticImage emptyImage) ∧ emptyImage.dimensions = 3
      ∧ (execute sampleHelpers 1 emptyRenderer).isError = false
      ∧ (execute sampleHelpers 1 emptyRenderer).state.mKernel.arg2 = some 0
      ∧ (execute sampleHelpers 1 emptyRenderer).state.mSliceNr = 0
      ∧ (execute sampleHelpers 2 (execute sampleHelpers 1 emptyRenderer).state).isError = false
      ∧ (execute sampleHelpers 2 (execute sampleHelpers 1 emptyRenderer).state).state.mKernel.arg2
          = some 4294967295
      ∧ (execute sampleHelpers 2 (execute sampleHelpers 1 emptyRenderer).state).state.mSliceNr
          = -1
      ∧ (execute sampleHelpers 2 (execute sampleHelpers 1 emptyRenderer).state).state.mSliceNr
          ≠ (execute sampleHelpers 1 emptyRenderer).state.mSliceNr := by
  refine ⟨rfl, rfl, by decide, by decide, by decide, by decide, by decide, by decide, by decide⟩

/-- C8. `recompileOpenCLCode` asks the device for a program exactly when no
texture has been created yet or the data type of the input differs from
`mTypeCLCodeCompiledFor`; it then makes the single request with `-DTYPE_FLOAT`
for `TYPE_FLOAT`, `-DTYPE_INT` for `TYPE_INT8` and `TYPE_INT16`, `-DTYPE_UINT`
for every other type, and otherwise changes nothing; afterwards
`mTypeCLCodeCompiledFor` is the data type of the input. Two consecutive
returning calls of `execute` on frames of one data type compile at most once,
and never in the second call. -/
theorem recompileOpenCLCode_spec (r : SliceRenderer) (input : Image) :
    ((∃ file options, Event.createProgramFromSource file options ∈ (recompileOpenCLCode r input).2)
        ↔ (r.mTextureIsCreated = false ∨ input.dataType ≠ r.mTypeCLCodeCompiledFor))
      ∧ ((r.mTextureIsCreated = false ∨ input.dataType ≠ r.mTypeCLCodeCompiledFor) →
          ∃ options, (recompileOpenCLCode r input).2
                = [Event.createProgramFromSource kernelSourceFile options]
            ∧ (recompileOpenCLCode r input).1.mKernel.program = some options
            ∧ (input.dataType = .TYPE_FLOAT → options = "-DTYPE_FLOAT")
            ∧ (input.dataType = .TYPE_INT8 ∨ input.dataType = .TYPE_INT16 → options = "-DTYPE_INT")
            ∧ (input.dataType ≠ .TYPE_FLOAT → input.dataType ≠ .TYPE_INT8 →
                input.dataType ≠ .TYPE_INT16 → options = "-DTYPE_UINT"))
      ∧ (¬ (r.mTextureIsCreated = false ∨ input.dataType ≠ r.mTypeCLCodeCompiledFor) →
          recompileOpenCLCode r input = (r, []))
      ∧ (recompileOpenCLCode r input).1.mTypeCLCodeCompiledFor = input.dataType
      ∧ (∀ (hf : HelperFunctions) (t1 t2 : Nat) (r1 r2 : SliceRenderer) (ev1 ev2 : List Event)
            (i1 i2 : Image),
          execute hf t1 r = Outcome.returned r1 ev1 →
          execute hf t2 r1 = Outcome.returned r2 ev2 →
          inputFrame r = some i1 → inputFrame r1 = some i2 → i1.dataType = i2.dataType →
          (ev1 ++ ev2).countP Event.isCompile ≤ 1 ∧ ev2.countP Event.isCompile = 0) := by
  have hneed : needsRecompile r input = true
      ↔ (r.mTextureIsCreated = false ∨ input.dataType ≠ r.mTypeCLCodeCompiledFor) := by
    unfold needsRecompile
    cases r.mTextureIsCreated with
    | false => simp
    | true =>
      simp only [Bool.not_true, Bool.false_or, decide_eq_true_eq, Bool.true_eq_false, false_or]
      exact ⟨fun h e => h e.symm, fun h e => h e.symm⟩
  refine ⟨?_, ?_, ?_, (recompileOpenCLCode_frame r input).1, ?_⟩
  · rw [← hneed, recompileOpenCLCode_eq]
    by_cases h : needsRecompile r input = true
    · simp [h]
    · simp [h]
  · intro hc
    have h := hneed.2 hc
    rw [recompileOpenCLCode_eq]
    simp only [h, if_true]
    refine ⟨buildOptionsFor input.dataType, rfl, rfl, ?_, ?_, ?_⟩
    · intro ht
      simp [buildOptionsFor, ht]
    · intro ht
      rcases ht with ht | ht <;> simp [buildOptionsFor, ht]
    · intro h1 h2 h3
      simp [buildOptionsFor, h1, h2, h3]
  · intro hc
    have h : ¬ needsRecompile r input = true := fun hn => hc (hneed.1 hn)
    rw [recompileOpenCLCode_eq]
    simp only [h, if_false]
    rfl
  · intro hf t1 t2 r1 r2 ev1 ev2 i1 i2 h1 h2 hf1 hf2 hty
    obtain ⟨in1, n1, hfr1, _, _, _, _, _, _, hcr1, hty1, hc1⟩ :=
      execute_returned_spec hf t1 r r1 ev1 h1
    obtain ⟨in2, n2, hfr2, _, _, _, _, _, _, _, _, hc2⟩ :=
      execute_returned_spec hf t2 r1 r2 ev2 h2
    rw [hf1] at hfr1
    rw [hf2] at hfr2
    have e1 := Option.some.inj hfr1
    have e2 := Option.some.inj hfr2
    subst e1
    subst e2
    have hno : needsRecompile r1 i2 = false := by
      unfold needsRecompile
      rw [hcr1, hty1, hty]
      simp
    rw [hno] at hc2
    simp only [Bool.false_eq_true, if_false] at hc2
    refine ⟨?_, hc2⟩
    rw [List.countP_append, hc1, hc2]
    split <;> omega

/-- Witness for C8: the sample renderer compiles once, with `-DTYPE_UINT` for
its image of a further (unsigned) type. -/
theorem recompileOpenCLCode_spec_witness :
    ∃ options, (recompileOpenCLCode sampleRenderer sampleImage).2
          = [Event.createProgramFromSource kernelSourceFile options]
      ∧ (recompileOpenCLCode sampleRenderer sampleImage).1.mKernel.program = some options
      ∧ (sampleImage.dataType = .TYPE_FLOAT → options = "-DTYPE_FLOAT")
      ∧ (sampleImage.dataType = .TYPE_INT8 ∨ sampleImage.dataType = .TYPE_INT16 →
          options = "-DTYPE_INT")
      ∧ (sampleImage.dataType ≠ .TYPE_FLOAT → sampleImage.dataType ≠ .TYPE_INT8 →
          sampleImage.dataType ≠ .TYPE_INT16 → options = "-DTYPE_UINT") :=
  (recompileOpenCLCode_spec sampleRenderer sampleImage).2.1 (Or.inl rfl)

/-- C6, as the code has it. After a returning `execute` and any sequence of
`setSliceToRender` / `setSlicePlane` calls, `draw` uses the texture, width and
height that `execute` produced together with the plane and slice number stored
now; its calls are those made right after the `execute` whenever the stored
plane and slice number are still the ones `execute` left. -/
theorem draw_after_setters (hf : HelperFunctions) (newTexture : Nat) (r0 r1 : SliceRenderer)
    (ev : List Event) (calls : List SetterCall)
    (h : execute hf newTexture r0 = Outcome.returned r1 ev) :
    (applySetters r1 calls).mWidth = r1.mWidth ∧ (applySetters r1 calls).mHeight = r1.mHeight
      ∧ (applySetters r1 calls).mTexture = r1.mTexture
      ∧ (applySetters r1 calls).mTextureIsCreated = true
      ∧ (draw (applySetters r1 calls)).2 =
          (draw { r1 with mSlicePlane := (applySetters r1 calls).mSlicePlane,
                          mSliceNr := (applySetters r1 calls).mSliceNr }).2
      ∧ ((applySetters r1 calls).mSlicePlane = r1.mSlicePlane →
          (applySetters r1 calls).mSliceNr = r1.mSliceNr →
          quadOf (draw (applySetters r1 calls)).2 = quadOf (draw r1).2
            ∧ (draw (applySetters r1 calls)).2 = (draw r1).2) := by
  obtain ⟨_, _, _, _, _, _, _, _, _, hcr, _, _⟩ := execute_returned_spec hf newTexture r0 r1 ev h
  obtain ⟨hw, hh, ht, hc⟩ := applySetters_frame r1 calls
  refine ⟨hw, hh, ht, hc.trans hcr, ?_, ?_⟩
  · exact draw_congr _ _ hc ht rfl rfl hw hh
  · intro hp hn
    have hd := draw_congr _ _ hc ht hp hn hw hh
    exact ⟨by rw [hd], hd⟩

/-- Witness for C6 as amended: the sample renderer after `execute` and a
change of slice followed by a change back. -/
theorem draw_after_setters_witness :
    (draw (applySetters renderedSample
        [SetterCall.setSliceToRender 7, SetterCall.setSliceToRender 15])).2
      = (draw renderedSample).2 :=
  ((draw_after_setters sampleHelpers 1 sampleRenderer renderedSample
      (execute sampleHelpers 1 sampleRenderer).events
      [SetterCall.setSliceToRender 7, SetterCall.setSliceToRender 15] rfl).2.2.2.2.2
    rfl rfl).2

/-- Counterexample to C6 as stated: `execute` renders slice 15 of the sample
image; after `setSliceToRender(7)` and no further `execute`, the quad of `draw`
lies at z = 7, not at z = 15 where it lay right after the `execute`. -/
theorem draw_quad_follows_setter :
    execute sampleHelpers 1 sampleRenderer
        = Outcome.returned renderedSample (execute sampleHelpers 1 sampleRenderer).events
      ∧ quadOf (draw renderedSample).2 =
          [Event.glTexCoord2i 0 1, Event.glVertex3f 0 20 15,
           Event.glTexCoord2i 1 1, Event.glVertex3f 10 20 15,
           Event.glTexCoord2i 1 0, Event.glVertex3f 10 0 15,
           Event.glTexCoord2i 0 0, Event.glVertex3f 0 0 15]
      ∧ quadOf (draw (applySetters renderedSample [SetterCall.setSliceToRender 7])).2 =
          [Event.glTexCoord2i 0 1, Event.glVertex3f 0 20 7,
           Event.glTexCoord2i 1 1, Event.glVertex3f 10 20 7,
           Event.glTexCoord2i 1 0, Event.glVertex3f 10 0 7,
           Event.glTexCoord2i 0 0, Event.glVertex3f 0 0 7]
      ∧ quadOf (draw (applySetters renderedSample [SetterCall.setSliceToRender 7])).2
          ≠ quadOf (draw renderedSample).2 := by
  refine ⟨rfl, by decide, by decide, by decide⟩

/-- C10. The loop of `main` annotated "Call update 4 times" calls `update`
three times, whatever fuel beyond four evaluations of the condition is given. -/
theorem mainStreamingUpdates_eq_three (extra : Nat) :
    mainStreamingUpdates (4 + extra) = some 3 ∧ mainStreamingUpdates (4 + extra) ≠ some 4 := by
  have h : 4 + extra = extra + 1 + 1 + 1 + 1 := by omega
  rw [h]
  constructor
  · rfl
  · intro hc
    have h3 : mainStreamingUpdates (extra + 1 + 1 + 1 + 1) = some 3 := rfl
    rw [h3] at hc
    cases hc

end fast
